import Mathlib

/-!
Verification development for the package-health-agent repository.

The definitions below are shallow embeddings of the Python source files
`src/a2a_handler.py`, `src/main_a2a.py` and `src/models/a2a.py`.
Network-bound library calls (HTTP requests, base64 decoding, json.dumps,
uuid4) are modelled as explicit function parameters (oracles / fresh
values); everything else is translated directly from the source.
-/

namespace PkgHealth

/- ## Character classes used by the extraction regexes
The source uses `re.findall` with ASCII character classes; `\b` and `\w`
are modelled for ASCII input (the repository only feeds ASCII text). -/

/-- ASCII word character, as used by the regex word boundary `\b`. -/
def isWordChar (c : Char) : Bool := c.isAlpha || c.isDigit || c = '_'

/-- Character class `[a-zA-Z0-9_-]` (package-name part of both regexes). -/
def isNameChar (c : Char) : Bool := c.isAlpha || c.isDigit || c = '_' || c = '-'

/-- Character class `[=<>~!]` (operator part of the Python regex). -/
def isOpChar (c : Char) : Bool := c = '=' || c = '<' || c = '>' || c = '~' || c = '!'

/-- Character class `[0-9.]` (version part of the Python regex). -/
def isVerChar (c : Char) : Bool := c.isDigit || c = '.'

/-- Character class `[0-9.^~]` (version part of the npm regex). -/
def isNpmVerChar (c : Char) : Bool := c.isDigit || c = '.' || c = '^' || c = '~'

/-- Python `\s` for the ASCII range. -/
def isSpaceChar (c : Char) : Bool :=
  c = ' ' || c = '\t' || c = '\n' || c = '\x0d' || c = '\x0b' || c = '\x0c'

/-- Word-ness of an optional character; `none` stands for the edge of the
input and is never a word character. -/
def optIsWord : Option Char → Bool
  | none => false
  | some c => isWordChar c

/-- The regex word boundary `\b` between two adjacent positions. -/
def wordBoundary (a b : Option Char) : Bool := optIsWord a != optIsWord b

/-- Backtracking search for the trailing `\b` after a greedy version run:
given the version run reversed and the character following the full run,
return the largest prefix length whose final character sits at a word
boundary (the regex engine shrinks the greedy `+` from the right). -/
def lastBoundaryLen : List Char → Option Char → Option Nat
  | [], _ => none
  | c :: rest, next =>
    if wordBoundary (some c) next then some (rest.length + 1)
    else lastBoundaryLen rest (some c)

/- ## The Python-mode regex  `\b([a-zA-Z0-9_-]+)\s*([=<>~!]+)\s*([0-9.]+)\b`
The classes of successive atoms are pairwise disjoint, so greedy maximal
munch is exact for every atom except the final `[0-9.]+`, whose length is
settled by `lastBoundaryLen`. -/

/-- One attempted match of the Python package regex at the current
position; `prev` is the character just before the position (for `\b`).
Returns the three capture groups and the number of characters consumed. -/
def pyMatchAt (prev : Option Char) (cs : List Char) :
    Option ((List Char × List Char × List Char) × Nat) :=
  if wordBoundary prev cs.head? then
    let name := cs.takeWhile isNameChar
    if name.isEmpty then none else
    let r1 := cs.drop name.length
    let sp1 := r1.takeWhile isSpaceChar
    let r2 := r1.drop sp1.length
    let ops := r2.takeWhile isOpChar
    if ops.isEmpty then none else
    let r3 := r2.drop ops.length
    let sp2 := r3.takeWhile isSpaceChar
    let r4 := r3.drop sp2.length
    let ver := r4.takeWhile isVerChar
    if ver.isEmpty then none else
    let r5 := r4.drop ver.length
    match lastBoundaryLen ver.reverse r5.head? with
    | none => none
    | some k =>
        some ((name, ops, ver.take k),
          name.length + sp1.length + ops.length + sp2.length + k)
  else none

/-- `re.findall` scan for the Python package regex: try a match at every
position from left to right, skipping over consumed characters.  The fuel
starts at the input length; every step consumes at least one character. -/
def pyFindallAux : Nat → Option Char → List Char →
    List (List Char × List Char × List Char)
  | 0, _, _ => []
  | Nat.succ fuel, prev, cs =>
    match cs with
    | [] => []
    | c :: rest =>
      match pyMatchAt prev cs with
      | some (g, n) =>
        if n = 0 then g :: pyFindallAux fuel (some c) rest
        else g :: pyFindallAux fuel ((cs.take n).reverse.headD c) (cs.drop n)
      | none => pyFindallAux fuel (some c) rest

/-- All matches of the Python package regex in a string, as capture-group
triples (name, operator, version). -/
def pyFindall (s : String) : List (List Char × List Char × List Char) :=
  pyFindallAux s.toList.length none s.toList

/-- Python `str.split()` (split on whitespace runs, dropping empties). -/
def pySplitWs (cs : List Char) : List (List Char) :=
  (cs.splitOnP isSpaceChar).filter (fun w => !w.isEmpty)

/-- Python `word.strip(',')`. -/
def stripCommas (w : List Char) : List Char :=
  ((w.dropWhile (fun c => c = ',')).reverse.dropWhile (fun c => c = ',')).reverse

/-- Python's `sub in word` substring containment on character lists. -/
def containsSub (sub : List Char) : List Char → Bool
  | [] => sub.isEmpty
  | c :: rest => sub.isPrefixOf (c :: rest) || containsSub sub rest

/-- The operator substrings probed by the fallback scan in
`_extract_python_packages`. -/
def fallbackOps : List (List Char) :=
  [['=', '='], ['>', '='], ['<', '='], ['>'], ['<'], ['~', '=']]

/-- `A2AHandler._extract_python_packages`: regex matches reassembled as
`name ++ op ++ version`, then a whitespace-token fallback scan appending
comma-stripped tokens that contain an operator and are not yet present. -/
def extract_python_packages (text : String) : List String :=
  let found := pyFindall text
  let packages := found.map (fun g => (g.1 ++ g.2.1 ++ g.2.2).asString)
  let words := pySplitWs text.toList
  words.foldl
    (fun pkgs w =>
      let w := stripCommas w
      if fallbackOps.any (fun op => containsSub op w) then
        if pkgs.contains w.asString then pkgs else pkgs ++ [w.asString]
      else pkgs)
    packages

/- ## The npm-mode regex  `\b([a-zA-Z0-9_-]+)@([0-9.^~]+)\b` -/

/-- One attempted match of the npm package regex at the current position. -/
def npmMatchAt (prev : Option Char) (cs : List Char) :
    Option ((List Char × List Char) × Nat) :=
  if wordBoundary prev cs.head? then
    let name := cs.takeWhile isNameChar
    if name.isEmpty then none else
    match cs.drop name.length with
    | '@' :: r2 =>
      let ver := r2.takeWhile isNpmVerChar
      if ver.isEmpty then none else
      let r3 := r2.drop ver.length
      match lastBoundaryLen ver.reverse r3.head? with
      | none => none
      | some k => some ((name, ver.take k), name.length + 1 + k)
    | _ => none
  else none

/-- `re.findall` scan for the npm package regex. -/
def npmFindallAux : Nat → Option Char → List Char → List (List Char × List Char)
  | 0, _, _ => []
  | Nat.succ fuel, prev, cs =>
    match cs with
    | [] => []
    | c :: rest =>
      match npmMatchAt prev cs with
      | some (g, n) =>
        if n = 0 then g :: npmFindallAux fuel (some c) rest
        else g :: npmFindallAux fuel ((cs.take n).reverse.headD c) (cs.drop n)
      | none => npmFindallAux fuel (some c) rest

/-- All `name@version` matches in a string, as (name, version) pairs. -/
def npmMatches (s : String) : List (String × String) :=
  (npmFindallAux s.toList.length none s.toList).map
    (fun g => (g.1.asString, g.2.asString))

/-- First-match association-list lookup: Python `dict.get` / `in`. -/
def pyGet : List (String × String) → String → Option String
  | [], _ => none
  | (a, b) :: rest, k => if k = a then some b else pyGet rest k

/-- Python dict assignment `d[k] = v`: update an existing key in place,
otherwise append at the end (insertion order preserved). -/
def dictInsert : List (String × String) → String → String →
    List (String × String)
  | [], k, v => [(k, v)]
  | (a, b) :: rest, k, v =>
    if a = k then (a, v) :: rest else (a, b) :: dictInsert rest k v

/-- `A2AHandler._extract_npm_packages`: every regex match is assigned into
a dict, so a duplicated name keeps its last matched version. -/
def extract_npm_packages (text : String) : List (String × String) :=
  (npmMatches text).foldl (fun d p => dictInsert d p.1 p.2) []

/-- Last element of a list, if any (used to state last-occurrence-wins). -/
def lastOf : List α → Option α
  | [] => none
  | [a] => some a
  | _ :: b :: rest => lastOf (b :: rest)

/-- The version of the last regex match carrying the given name. -/
def lastVersionFor (k : String) (ms : List (String × String)) : Option String :=
  lastOf ((ms.filter (fun p => p.1 = k)).map (fun p => p.2))

/- ## Health scorer (`main_a2a.py`) -/

/-- `calculate_health_score`: start at 100, subtract 20 if outdated,
`min(50, vuln_count * 15)` if any vulnerabilities, 30 if deprecated,
clamp at 0. -/
def calculate_health_score (is_outdated : Bool) (vuln_count : Nat)
    (is_deprecated : Bool) : Int :=
  let score : Int := 100
  let score := if is_outdated then score - 20 else score
  let score := if 0 < vuln_count then score - min 50 (vuln_count * 15) else score
  let score := if is_deprecated then score - 30 else score
  max 0 score

/-- `get_recommendation`: the if/elif chain from the source. -/
def get_recommendation (health_score : Int) (is_outdated : Bool)
    (vuln_count : Nat) (is_deprecated : Bool) : String :=
  if health_score ≥ 80 then "Package is healthy!"
  else if is_deprecated then
    "Package is deprecated. Consider finding an alternative."
  else if 0 < vuln_count then
    "Update immediately! " ++ toString vuln_count ++
      " security vulnerability/ies found."
  else if is_outdated then "Update to the latest version when possible."
  else "Review package health metrics."

/-- First matching rule wins over a priority-ordered rule list. -/
def firstMatch : List (Bool × String) → String → String
  | [], dflt => dflt
  | (c, t) :: rest, dflt => if c then t else firstMatch rest dflt

/-- Modelled from the spec (§4.4 recommendation selection): a
priority-ordered rule list evaluated first-match-wins, to be compared with
the source's `get_recommendation`. -/
def recommendation_spec (health_score : Int) (is_outdated : Bool)
    (vuln_count : Nat) (is_deprecated : Bool) : String :=
  firstMatch
    [(decide (health_score ≥ 80), "Package is healthy!"),
     (is_deprecated, "Package is deprecated. Consider finding an alternative."),
     (decide (0 < vuln_count),
       "Update immediately! " ++ toString vuln_count ++
         " security vulnerability/ies found."),
     (is_outdated, "Update to the latest version when possible.")]
    "Review package health metrics."

/- ## Analysis pipeline (`main_a2a.py`, class PackageChecker)
The HTTP calls inside `check_pypi_package`, `check_npm_package` and
`check_vulnerabilities_osv` are modelled as oracles: `latestOf name` is
the registry's latest version on a successful 200 response and `none` on
any failure (non-200, timeout, exception), and `osv name` is the advisory
list produced by the OSV query (empty on failure). -/

/-- `models/schemas.py` `PackageDependency`. -/
structure PackageDependency where
  name : String
  version : Option String
deriving Repr, DecidableEq

/-- One OSV advisory entry as assembled by `check_vulnerabilities_osv`. -/
structure Advisory where
  id : Option String
  summary : String
  severity : String
  published : String
deriving Repr, DecidableEq

/-- Registry lookup result dict of `check_pypi_package` / `check_npm_package`. -/
structure RegistryInfo where
  latest_version : Option String
  is_outdated : Bool
  deprecated : Bool
deriving Repr, DecidableEq

/-- Python `str.strip()` (whitespace at both ends). -/
def pyStrip (s : String) : String :=
  (((s.toList.dropWhile isSpaceChar).reverse.dropWhile isSpaceChar).reverse).asString

/-- Split at the first occurrence of `op` (Python `s.split(op, 1)`);
only called when `op` occurs in the string. -/
def splitOnceAux (op : List Char) : List Char → List Char × List Char
  | [] => ([], [])
  | c :: rest =>
    if op.isPrefixOf (c :: rest) then ([], (c :: rest).drop op.length)
    else
      let (a, b) := splitOnceAux op rest
      (c :: a, b)

/-- The version-constraint operators probed by `analyze_python`, in source
order. -/
def pythonOps : List String := ["==", ">=", "<=", ">", "<", "~="]

/-- The `for op in [...]` loop of `analyze_python`: the first operator of
`pythonOps` occurring in the string splits it once; the for-else branch
yields an unpinned dependency. -/
def parse_python_requirement (pkg_str : String) : Option PackageDependency :=
  let s := pyStrip pkg_str
  if s = "" || s.startsWith "#" then none
  else
    match pythonOps.find? (fun op => containsSub op.toList s.toList) with
    | some op =>
      let (n, v) := splitOnceAux op.toList s.toList
      some ⟨pyStrip n.asString, some (pyStrip v.asString)⟩
    | none => some ⟨s, none⟩

/-- `check_pypi_package`: on a successful registry response the package is
outdated iff a non-empty current version differs from the latest (Python
`current_version and current_version != latest_version`); any failure
degrades to the unknown result. -/
def check_pypi_package (latestOf : String → Option String) (name : String)
    (current : Option String) : RegistryInfo :=
  match latestOf name with
  | some latest =>
    { latest_version := some latest
      is_outdated := match current with
        | none => false
        | some c => if c = "" then false else decide (c ≠ latest)
      deprecated := false }
  | none => { latest_version := none, is_outdated := false, deprecated := false }

/-- `check_npm_package`: identical logic against the npm registry. -/
def check_npm_package (latestOf : String → Option String) (name : String)
    (current : Option String) : RegistryInfo :=
  match latestOf name with
  | some latest =>
    { latest_version := some latest
      is_outdated := match current with
        | none => false
        | some c => if c = "" then false else decide (c ≠ latest)
      deprecated := false }
  | none => { latest_version := none, is_outdated := false, deprecated := false }

/-- Per-package entry of the aggregate report dict. -/
structure PackageResult where
  name : String
  current_version : Option String
  latest_version : Option String
  is_outdated : Bool
  has_vulnerabilities : Bool
  vulnerability_count : Nat
  is_deprecated : Bool
  health_score : Int
  recommendation : String
  vulnerabilities : List Advisory
deriving Repr, DecidableEq

/-- Aggregate report dict returned by `analyze_python` / `analyze_npm`;
the empty dict `{}` sentinel is modelled as `none` at the call sites. -/
structure Aggregate where
  total_packages : Nat
  outdated_count : Nat
  vulnerable_count : Nat
  deprecated_count : Nat
  overall_health_score : Int
  packages : List PackageResult
deriving Repr, DecidableEq

/-- The per-package analysis step shared by both pipelines. -/
def analyze_one (info : RegistryInfo) (vulnerabilities : List Advisory)
    (pkg : PackageDependency) : PackageResult :=
  let is_outdated := info.is_outdated
  let vc := vulnerabilities.length
  let is_deprecated := info.deprecated
  let hs := calculate_health_score is_outdated vc is_deprecated
  { name := pkg.name
    current_version := pkg.version
    latest_version := info.latest_version
    is_outdated := is_outdated
    has_vulnerabilities := decide (0 < vc)
    vulnerability_count := vc
    is_deprecated := is_deprecated
    health_score := hs
    recommendation := get_recommendation hs is_outdated vc is_deprecated
    vulnerabilities := vulnerabilities }

/-- Fold a package-result list into the aggregate dict (the loop counters
and the floor-division overall score of the source). -/
def aggregateOf (results : List PackageResult) : Aggregate :=
  { total_packages := results.length
    outdated_count := (results.filter (fun r => r.is_outdated)).length
    vulnerable_count := (results.filter (fun r => r.has_vulnerabilities)).length
    deprecated_count := (results.filter (fun r => r.is_deprecated)).length
    overall_health_score :=
      (results.map (fun r => r.health_score)).sum / (results.length : Int)
    packages := results }

/-- `PackageChecker.analyze_python`: parse the specifier strings, return
the empty sentinel when nothing parses, otherwise analyze each package. -/
def analyze_python (latestOf : String → Option String)
    (osv : String → List Advisory) (packages : List String) :
    Option Aggregate :=
  let parsed_packages := packages.filterMap parse_python_requirement
  if parsed_packages.isEmpty then none
  else
    some (aggregateOf (parsed_packages.map (fun pkg =>
      analyze_one (check_pypi_package latestOf pkg.name pkg.version)
        (osv pkg.name) pkg)))

/-- Python `version.lstrip('^~>=<')`. -/
def cleanNpmVersion (v : String) : String :=
  (v.toList.dropWhile (fun c =>
    c = '^' || c = '~' || c = '>' || c = '=' || c = '<')).asString

/-- `PackageChecker.analyze_npm`: empty dependency dict is the empty
sentinel; otherwise clean each version and analyze each package. -/
def analyze_npm (latestOf : String → Option String)
    (osv : String → List Advisory) (dependencies : List (String × String)) :
    Option Aggregate :=
  if dependencies.isEmpty then none
  else
    some (aggregateOf (dependencies.map (fun d =>
      let pkg : PackageDependency := ⟨d.1, some (cleanNpmVersion d.2)⟩
      analyze_one (check_npm_package latestOf pkg.name pkg.version)
        (osv pkg.name) pkg)))

/- ## Report formatter (`a2a_handler.py`, `_format_analysis_result`) -/

/-- Python `str(x)` on an optional string (`None` prints as "None"). -/
def pyOptStr : Option String → String
  | some s => s
  | none => "None"

/-- Status glyph selected by a health score. -/
def healthEmoji (score : Int) : String :=
  if score ≥ 80 then "✅" else if score ≥ 60 then "⚠️" else "❌"

/-- One per-package block of the report text. -/
def format_package_block (pkg : PackageResult) : String :=
  healthEmoji pkg.health_score ++ " **" ++ pkg.name ++ "** (" ++
    pyOptStr pkg.current_version ++ ")\n" ++
  "   - Latest: " ++ pyOptStr pkg.latest_version ++ "\n" ++
  "   - Health: " ++ toString pkg.health_score ++ "/100\n" ++
  (if 0 < pkg.vulnerability_count then
    "   - ⚠️ " ++ toString pkg.vulnerability_count ++ " vulnerability/ies found\n"
   else "") ++
  (if pkg.recommendation = "" then "" else
    "   - 💡 " ++ pkg.recommendation ++ "\n") ++
  "\n"

/-- `_format_analysis_result`: the falsy (empty) result renders the
"nothing analyzed" line with the ecosystem label interpolated; otherwise
the deterministic report template. -/
def format_analysis_result (result : Option Aggregate) (ecosystem : String) :
    String :=
  match result with
  | none => "No " ++ ecosystem ++ " packages were analyzed."
  | some r =>
    "## " ++ ecosystem ++ " Package Health Report " ++
      healthEmoji r.overall_health_score ++ "\n\n" ++
    "**Overall Health Score:** " ++ toString r.overall_health_score ++ "/100\n" ++
    "**Total Packages:** " ++ toString r.total_packages ++ "\n" ++
    "**Outdated:** " ++ toString r.outdated_count ++ "\n" ++
    "**With Vulnerabilities:** " ++ toString r.vulnerable_count ++ "\n\n" ++
    (if r.packages.isEmpty then "" else
      "### Package Details:\n\n" ++
        String.join (r.packages.map format_package_block))

/- ## The `/a2a` endpoint's envelope validation (`main_a2a.py`, `a2a_endpoint`)
The endpoint receives an already-parsed JSON body (the -32700 parse-error
branch is upstream of the value modelled here).  JSON numbers are modelled
as integers; only their truthiness is ever consulted. -/

/-- A parsed JSON value as produced by `await request.json()`. -/
inductive JValue where
  | null : JValue
  | bool (b : Bool) : JValue
  | num (n : Int) : JValue
  | str (s : String) : JValue
  | arr (elems : List JValue) : JValue
  | obj (fields : List (String × JValue)) : JValue

/-- Python truthiness of a JSON value (`if not body`). -/
def jTruthy : JValue → Bool
  | .null => false
  | .bool b => b
  | .num n => decide (n ≠ 0)
  | .str s => decide (s ≠ "")
  | .arr elems => !elems.isEmpty
  | .obj fields => !fields.isEmpty

/-- The `body == {}` comparison of the source. -/
def jIsEmptyDict : JValue → Bool
  | .obj [] => true
  | _ => false

/-- `body.get(key)`: javascript-object field access with json's
duplicate-key last-wins collapse. -/
def jGet (fields : List (String × JValue)) (key : String) : Option JValue :=
  lastOf ((fields.filter (fun p => p.1 = key)).map (fun p => p.2))

/-- Python `body.get("jsonrpc") != "2.0"` specialised to a string literal
(no general JSON equality is needed). -/
def jIsStr (v : JValue) (s : String) : Bool :=
  match v with
  | .str t => t = s
  | _ => false

/-- Where the endpoint's validation prologue ends up: an early 200 "ok"
acknowledgment, an early JSON-RPC error response, or dispatch of the
validated body into Pydantic parsing and the A2A handler (all business
logic — extraction, analysis, conversation update — lives behind
`toDispatch`). -/
inductive EndpointOutcome where
  | emptyOk : EndpointOutcome
  | errorResp (code : Int) (rid : Option JValue) : EndpointOutcome
  | toDispatch (fields : List (String × JValue)) : EndpointOutcome

/-- The validation prologue of `a2a_endpoint`: empty/falsy body → 200 ok;
non-dict body → AttributeError on `body.get`, caught as -32603; then the
`jsonrpc` version check (-32600), the id presence check (-32600), and
finally dispatch.  -/
def a2a_endpoint_route (body : JValue) : EndpointOutcome :=
  if !jTruthy body || jIsEmptyDict body then .emptyOk
  else
    match body with
    | .obj fields =>
      let request_id := jGet fields "id"
      if !((jGet fields "jsonrpc").any (fun v => jIsStr v "2.0")) then
        .errorResp (-32600) request_id
      else if !((request_id.map jTruthy).getD false) then
        .errorResp (-32600) none
      else .toDispatch fields
    | _ => .errorResp (-32603) none

/-- `true` exactly on the -32600 invalid-request rejection. -/
def isInvalidRequest32600 : EndpointOutcome → Bool
  | .errorResp code _ => decide (code = -32600)
  | _ => false

/- ## A2A protocol handler (`a2a_handler.py`)
`str(uuid4())` mints are modelled as explicit fresh-string parameters
(one per call site); `_process_user_message` performs the network-bound
analysis and is passed in as an oracle returning the response text and the
artifact list; base64 decoding and the json.dumps / str renderings of
structured payloads are likewise oracles of the external libraries. -/

/-- Payload of a message part's `data` field: a raw string or a
structured key/value payload. -/
inductive PartData where
  | str (s : String) : PartData
  | obj (fields : List (String × String)) : PartData
deriving DecidableEq

/-- `models/a2a.py` `MessagePart` (fields consulted by the handler). -/
structure MessagePart where
  kind : String
  text : Option String := none
  data : Option PartData := none
deriving DecidableEq

/-- `models/a2a.py` `A2AMessage` (fields consulted by the handler;
`messageId`'s uuid default and `metadata` are never consulted). -/
structure A2AMessage where
  role : String
  parts : List MessagePart
  taskId : Option String := none
deriving DecidableEq

/-- `models/a2a.py` `Artifact`. -/
structure Artifact where
  artifactId : String
  name : String
  parts : List MessagePart
deriving DecidableEq

/-- `models/a2a.py` `TaskStatus` (the wall-clock timestamp default is not
modelled). -/
structure TaskStatus where
  state : String
  message : Option A2AMessage := none
deriving DecidableEq

/-- `models/a2a.py` `TaskResult`. -/
structure TaskResult where
  id : String
  contextId : String
  status : TaskStatus
  artifacts : List Artifact
  history : List A2AMessage
deriving DecidableEq

/-- JSON-RPC error object of `_error_response`. -/
structure RPCError where
  code : Int
  message : String
deriving DecidableEq

/-- `models/a2a.py` `JSONRPCResponse` (result and error are each optional). -/
structure JSONRPCResponse where
  id : String
  result : Option TaskResult := none
  error : Option RPCError := none
deriving DecidableEq

/-- The handler's `conversation_history` dict, as a total map defaulting
to the empty history (`if context_id not in ...: ... = []` makes the
lazily-created entry indistinguishable from the default). -/
def ConvStore := String → List A2AMessage

/-- Python truthiness of an optional `data` payload. -/
def partDataTruthy : Option PartData → Bool
  | none => false
  | some (.str s) => decide (s ≠ "")
  | some (.obj fields) => !fields.isEmpty

/-- `_extract_text_from_message`: text parts verbatim, file parts by
best-effort base64 decode (falling back to `str(part.data)`), data parts
by the raw string or `json.dumps` of the structured payload, joined by
single spaces.  `b64` is the base64-decode oracle (`none` = exception),
`dumps` and `pyStr` the json.dumps / str renderings of a dict. -/
def extract_text_from_message (b64 : String → Option String)
    (dumps pyStr : List (String × String) → String) (m : A2AMessage) :
    String :=
  String.intercalate " " (m.parts.filterMap (fun part =>
    if part.kind = "text" then
      match part.text with
      | some t => if t = "" then none else some t
      | none => none
    else if part.kind = "file" && partDataTruthy part.data then
      match part.data with
      | some (.str s) =>
        match b64 s with
        | some decoded => some decoded
        | none => some s
      | some (.obj fields) => some (pyStr fields)
      | none => none
    else if part.kind = "data" && partDataTruthy part.data then
      match part.data with
      | some (.str s) => some s
      | some (.obj fields) => some (dumps fields)
      | none => none
    else none))

/-- Python `x or str(uuid4())` on an optional string: the empty string is
falsy and also falls back to the fresh uuid. -/
def orFresh (o : Option String) (fresh : String) : String :=
  match o with
  | some s => if s = "" then fresh else s
  | none => fresh

/-- `_handle_message_send`: resolve the context id from the inbound
message's `taskId` (or mint `freshCtx`), append the inbound message, run
`process` (= `_process_user_message`), append the agent message, and build
the completed `TaskResult` whose own id is `taskId or` a second mint
`freshTask`. -/
def handle_message_send (b64 : String → Option String)
    (dumps pyStr : List (String × String) → String)
    (process : String → String × List Artifact)
    (freshCtx freshTask : String) (st : ConvStore) (reqId : String)
    (user_message : A2AMessage) : ConvStore × JSONRPCResponse :=
  let user_text := extract_text_from_message b64 dumps pyStr user_message
  let context_id := orFresh user_message.taskId freshCtx
  let st1 : ConvStore :=
    fun c => if c = context_id then st c ++ [user_message] else st c
  let rt := process user_text
  let agent_message : A2AMessage :=
    { role := "agent"
      parts := [{ kind := "text", text := some rt.1 }]
      taskId := some context_id }
  let st2 : ConvStore :=
    fun c => if c = context_id then st1 c ++ [agent_message] else st1 c
  let task_result : TaskResult :=
    { id := orFresh user_message.taskId freshTask
      contextId := context_id
      status := { state := "completed", message := some agent_message }
      artifacts := rt.2
      history := st2 context_id }
  (st2, { id := reqId, result := some task_result })

/-- `_handle_execute`: resolve the context id from the params (or mint
`freshCtx`), extend the conversation with all inbound messages, then
require a user message (-32602 if none), process the last one, append the
agent message and build the `TaskResult` whose id is `params.taskId or`
the mint `freshTask`. -/
def handle_execute (b64 : String → Option String)
    (dumps pyStr : List (String × String) → String)
    (process : String → String × List Artifact)
    (freshCtx freshTask : String) (st : ConvStore) (reqId : String)
    (contextId taskId : Option String) (messages : List A2AMessage) :
    ConvStore × JSONRPCResponse :=
  let context_id := orFresh contextId freshCtx
  let st1 : ConvStore :=
    fun c => if c = context_id then st c ++ messages else st c
  let user_messages := messages.filter (fun m => m.role = "user")
  match lastOf user_messages with
  | none =>
    (st1, { id := reqId
            error := some ⟨-32602, "No user message found in execute request"⟩ })
  | some last_user =>
    let user_text := extract_text_from_message b64 dumps pyStr last_user
    let rt := process user_text
    let agent_message : A2AMessage :=
      { role := "agent"
        parts := [{ kind := "text", text := some rt.1 }]
        taskId := taskId }
    let st2 : ConvStore :=
      fun c => if c = context_id then st1 c ++ [agent_message] else st1 c
    let task_result : TaskResult :=
      { id := orFresh taskId freshTask
        contextId := context_id
        status := { state := "completed", message := some agent_message }
        artifacts := rt.2
        history := st2 context_id }
    (st2, { id := reqId, result := some task_result })

/-- Request params after Pydantic parsing: `MessageParams` or
`ExecuteParams` (configuration and extra fields are never consulted). -/
inductive RequestParams where
  | send (message : A2AMessage) : RequestParams
  | exec (contextId taskId : Option String) (messages : List A2AMessage) :
      RequestParams

/-- `A2AHandler.handle_message`: route by method name; a params object of
the wrong shape raises AttributeError inside the branch, caught as the
-32602 invalid-params response (state untouched); an unknown method is the
-32601 response. -/
def handle_message (b64 : String → Option String)
    (dumps pyStr : List (String × String) → String)
    (process : String → String × List Artifact)
    (freshCtx freshTask : String) (st : ConvStore) (reqId : String)
    (method : String) (params : RequestParams) :
    ConvStore × JSONRPCResponse :=
  if method = "message/send" then
    match params with
    | .send m =>
      handle_message_send b64 dumps pyStr process freshCtx freshTask st reqId m
    | .exec _ _ _ =>
      (st, { id := reqId, error := some ⟨-32602, "Invalid params"⟩ })
  else if method = "execute" then
    match params with
    | .exec c t ms =>
      handle_execute b64 dumps pyStr process freshCtx freshTask st reqId c t ms
    | .send _ =>
      (st, { id := reqId, error := some ⟨-32602, "Invalid params"⟩ })
  else
    (st, { id := reqId
           error := some ⟨-32601, "Method not found: " ++ method⟩ })

/- ## Helper lemmas -/

lemma lastOf_cons_cons (a b : α) (l : List α) :
    lastOf (a :: b :: l) = lastOf (b :: l) := rfl

lemma lastOf_cons_isSome (a : α) (l : List α) : (lastOf (a :: l)).isSome := by
  induction l generalizing a with
  | nil => rfl
  | cons b bs ih => rw [lastOf_cons_cons]; exact ih b

lemma lastOf_cons (a : α) (l : List α) :
    lastOf (a :: l) =
      match lastOf l with
      | some x => some x
      | none => some a := by
  cases l with
  | nil => rfl
  | cons b bs =>
    rw [lastOf_cons_cons]
    obtain ⟨x, hx⟩ := Option.isSome_iff_exists.mp (lastOf_cons_isSome b bs)
    rw [hx]

lemma lastVersionFor_cons (k n v : String) (ms : List (String × String)) :
    lastVersionFor k ((n, v) :: ms) =
      match lastVersionFor k ms with
      | some w => some w
      | none => if k = n then some v else none := by
  unfold lastVersionFor
  by_cases h : n = k
  · subst h
    rw [show ((n, v) :: ms).filter (fun p => p.1 = n) =
        (n, v) :: ms.filter (fun p => p.1 = n) from by
      simp [List.filter_cons]]
    rw [List.map_cons, lastOf_cons]
    cases lastOf ((ms.filter (fun p => p.1 = n)).map (fun p => p.2)) <;> simp
  · rw [show ((n, v) :: ms).filter (fun p => p.1 = k) =
        ms.filter (fun p => p.1 = k) from by
      simp [List.filter_cons, h]]
    have hk : ¬ (k = n) := fun hkn => h hkn.symm
    cases lastOf ((ms.filter (fun p => p.1 = k)).map (fun p => p.2)) <;>
      simp [hk]

lemma pyGet_dictInsert (d : List (String × String)) (n v k : String) :
    pyGet (dictInsert d n v) k = if k = n then some v else pyGet d k := by
  induction d with
  | nil => by_cases hk : k = n <;> simp [dictInsert, pyGet, hk]
  | cons p rest ih =>
    rcases p with ⟨a, b⟩
    by_cases han : a = n
    · subst han
      by_cases hk : k = a <;> simp [dictInsert, pyGet, hk]
    · by_cases hka : k = a <;> by_cases hkn : k = n
      · exact absurd (hka.symm.trans hkn) han
      · simp [dictInsert, pyGet, han, hka, hkn, ih]
      · have hna : ¬ (n = a) := fun hh => han hh.symm
        rw [hkn] at ih
        simp only [if_pos rfl] at ih
        simp [dictInsert, pyGet, han, hka, hkn, hna, ih]
      · simp [dictInsert, pyGet, han, hka, hkn, ih]

lemma pyGet_foldl_dictInsert (ms : List (String × String)) :
    ∀ (d : List (String × String)) (k : String),
      pyGet (ms.foldl (fun acc p => dictInsert acc p.1 p.2) d) k =
        match lastVersionFor k ms with
        | some w => some w
        | none => pyGet d k := by
  induction ms with
  | nil => intro d k; rfl
  | cons p rest ih =>
    intro d k
    rcases p with ⟨n, v⟩
    rw [List.foldl_cons, ih (dictInsert d n v) k, lastVersionFor_cons,
      pyGet_dictInsert]
    cases h : lastVersionFor k rest <;> by_cases hk : k = n <;> simp [hk]

/- ## Claim theorems -/

/-- C1: for every input triple, `calculate_health_score` equals
`max(0, 100 - (20 if outdated) - min(50, 15 * vuln_count) - (30 if
deprecated))`, and it maps the five quoted triples to 100, 80, 85, 50
and 20 respectively. -/
theorem C1_calculate_health_score :
    (∀ (o : Bool) (v : Nat) (d : Bool),
      calculate_health_score o v d =
        max 0 (100 - (if o then 20 else 0) - min 50 (15 * (v : Int)) -
          (if d then 30 else 0)))
    ∧ calculate_health_score false 0 false = 100
    ∧ calculate_health_score true 0 false = 80
    ∧ calculate_health_score false 1 false = 85
    ∧ calculate_health_score false 10 false = 50
    ∧ calculate_health_score true 2 true = 20 := by
  refine ⟨?_, by decide, by decide, by decide, by decide, by decide⟩
  intro o v d
  unfold calculate_health_score
  rcases o <;> rcases d <;> by_cases hv : 0 < v <;>
    simp only [if_true, if_false, Bool.false_eq_true, hv, if_pos, if_neg,
      not_false_eq_true] <;>
    omega

/-- C4: `get_recommendation` agrees everywhere with the spec's
priority-ordered first-match-wins rule list (healthy, deprecated,
vulnerable, outdated, generic). -/
theorem C4_get_recommendation_priority :
    ∀ (s : Int) (o : Bool) (v : Nat) (d : Bool),
      get_recommendation s o v d = recommendation_spec s o v d := by
  intro s o v d
  by_cases hs : s ≥ 80 <;> by_cases hv : 0 < v <;> rcases o <;> rcases d <;>
    simp [get_recommendation, recommendation_spec, firstMatch, hs, hv]

/-- C5: Python-mode extraction of `"flask==2.0.1, requests>=2.25.0"` is
exactly the two-element list, in order, with no fallback duplicates. -/
theorem C5_python_extraction_example :
    extract_python_packages "flask==2.0.1, requests>=2.25.0" =
      ["flask==2.0.1", "requests>=2.25.0"] := by decide

/-- C10: on `"flask == 2.0.1"` the fallback scan appends the bare
operator token `"=="`, so the result contains an element with no package
name or version. -/
theorem C10_python_extraction_bare_operator :
    extract_python_packages "flask == 2.0.1" = ["flask==2.0.1", "=="]
    ∧ "==" ∈ extract_python_packages "flask == 2.0.1" := by
  exact ⟨by decide, by decide⟩

/-- C2 counterexample: the formatter interpolates the ecosystem label, so
the absent aggregate does not render exactly "No packages were
analyzed.". -/
theorem C2_counterexample :
    format_analysis_result none "Python" ≠ "No packages were analyzed." := by
  decide

/-- C2 (amended): an empty specifier list makes both pipelines return the
empty sentinel, and the formatter renders the absent aggregate as
"No {ecosystem} packages were analyzed.". -/
theorem C2_empty_pipeline_and_formatter :
    (∀ latestOf osv, analyze_python latestOf osv [] = none)
    ∧ (∀ latestOf osv, analyze_npm latestOf osv [] = none)
    ∧ format_analysis_result none "Python" = "No Python packages were analyzed."
    ∧ format_analysis_result none "npm" = "No npm packages were analyzed." :=
  ⟨fun _ _ => rfl, fun _ _ => rfl, rfl, rfl⟩

/-- C3 counterexample: the empty envelope `{}` has no `jsonrpc` field yet
is answered with the 200 "ok" acknowledgment, not with -32600. -/
theorem C3_counterexample :
    a2a_endpoint_route (JValue.obj []) = EndpointOutcome.emptyOk
    ∧ isInvalidRequest32600 (a2a_endpoint_route (JValue.obj [])) = false :=
  ⟨rfl, rfl⟩

/-- C3 (amended): every non-empty JSON-object envelope whose `jsonrpc`
field is not the string "2.0" (present or absent) is rejected with
-32600, echoing the envelope's id, before reaching dispatch. -/
theorem C3_invalid_version_rejected :
    ∀ (fields : List (String × JValue)),
      fields.isEmpty = false →
      ((jGet fields "jsonrpc").any (fun v => jIsStr v "2.0")) = false →
      a2a_endpoint_route (.obj fields) =
        .errorResp (-32600) (jGet fields "id") := by
  intro fields h1 h2
  unfold a2a_endpoint_route
  rcases fields with _ | ⟨p, rest⟩
  · simp at h1
  · simp [jTruthy, jIsEmptyDict, h2]

/-- C3 witness: a concrete envelope with `jsonrpc = "1.0"` is rejected
with -32600 and its id echoed. -/
theorem C3_witness :
    a2a_endpoint_route
        (.obj [("jsonrpc", .str "1.0"), ("id", .str "req-1")]) =
      .errorResp (-32600) (some (.str "req-1")) :=
  C3_invalid_version_rejected _ rfl rfl

/-- C6 counterexample: npm extraction keeps the matched version verbatim,
so a leading `^` is not stripped. -/
theorem C6_counterexample :
    pyGet (extract_npm_packages "express@^4.17.1") "express" = some "^4.17.1"
    ∧ ("^4.17.1" : String) ≠ "4.17.1" :=
  ⟨by decide, by decide⟩

/-- C6 (amended): npm extraction maps each matched name to the version
string exactly as matched (no stripping of leading `^`/`~`; `>`, `=`, `<`
cannot occur in a match), with a duplicated name keeping its last match;
the quoted example yields exactly the two pairs. -/
theorem C6_npm_extraction :
    (∀ (text k : String),
      pyGet (extract_npm_packages text) k = lastVersionFor k (npmMatches text))
    ∧ extract_npm_packages "express@4.17.1, axios@0.21.1" =
        [("express", "4.17.1"), ("axios", "0.21.1")] := by
  constructor
  · intro text k
    unfold extract_npm_packages
    rw [pyGet_foldl_dictInsert]
    cases h : lastVersionFor k (npmMatches text) <;> simp [pyGet]
  · decide

/- ## Handler store lemmas -/

lemma handle_message_send_store (b64 : String → Option String)
    (dumps pyStr : List (String × String) → String)
    (process : String → String × List Artifact) (f1 f2 : String)
    (st : ConvStore) (reqId : String) (m : A2AMessage) :
    ∃ agent : A2AMessage,
      (handle_message_send b64 dumps pyStr process f1 f2 st reqId m).1 =
        fun c => if c = orFresh m.taskId f1 then st c ++ [m, agent] else st c := by
  refine ⟨{ role := "agent"
            parts := [{ kind := "text"
                        text := some (process
                          (extract_text_from_message b64 dumps pyStr m)).1 }]
            taskId := some (orFresh m.taskId f1) }, ?_⟩
  funext c
  unfold handle_message_send
  by_cases h : c = orFresh m.taskId f1 <;> simp [h]

lemma handle_execute_store (b64 : String → Option String)
    (dumps pyStr : List (String × String) → String)
    (process : String → String × List Artifact) (f1 f2 : String)
    (st : ConvStore) (reqId : String) (contextId taskId : Option String)
    (messages : List A2AMessage) :
    ∃ suffix : List A2AMessage,
      (handle_execute b64 dumps pyStr process f1 f2 st reqId contextId taskId
          messages).1 =
        fun c => if c = orFresh contextId f1 then st c ++ suffix else st c := by
  unfold handle_execute
  cases hl : lastOf (messages.filter (fun m => m.role = "user")) with
  | none =>
    refine ⟨messages, ?_⟩
    funext c
    simp [hl]
  | some u =>
    refine ⟨messages ++
      [{ role := "agent"
         parts := [{ kind := "text"
                     text := some (process
                       (extract_text_from_message b64 dumps pyStr u)).1 }]
         taskId := taskId }], ?_⟩
    funext c
    by_cases h : c = orFresh contextId f1 <;> simp [hl, h]

lemma handle_execute_store_success (b64 : String → Option String)
    (dumps pyStr : List (String × String) → String)
    (process : String → String × List Artifact) (f1 f2 : String)
    (st : ConvStore) (reqId : String) (contextId taskId : Option String)
    (messages : List A2AMessage)
    (hu : messages.filter (fun m => m.role = "user") ≠ []) :
    ∃ agent : A2AMessage,
      (handle_execute b64 dumps pyStr process f1 f2 st reqId contextId taskId
          messages).1 =
        fun c => if c = orFresh contextId f1 then st c ++ messages ++ [agent]
                 else st c := by
  unfold handle_execute
  rcases hf : messages.filter (fun m => m.role = "user") with _ | ⟨a, l⟩
  · exact absurd hf hu
  · obtain ⟨u, hu2⟩ := Option.isSome_iff_exists.mp (lastOf_cons_isSome a l)
    refine ⟨{ role := "agent"
              parts := [{ kind := "text"
                          text := some (process
                            (extract_text_from_message b64 dumps pyStr u)).1 }]
              taskId := taskId }, ?_⟩
    funext c
    by_cases h : c = orFresh contextId f1 <;> simp [hf, hu2, h]

lemma handle_message_store (b64 : String → Option String)
    (dumps pyStr : List (String × String) → String)
    (process : String → String × List Artifact) (f1 f2 : String)
    (st : ConvStore) (reqId method : String) (params : RequestParams) :
    ∃ (cid : String) (suffix : List A2AMessage),
      (handle_message b64 dumps pyStr process f1 f2 st reqId method params).1 =
        fun c => if c = cid then st c ++ suffix else st c := by
  by_cases hm : method = "message/send"
  · rcases params with m | ⟨c, t, ms⟩
    · obtain ⟨agent, hst⟩ :=
        handle_message_send_store b64 dumps pyStr process f1 f2 st reqId m
      exact ⟨orFresh m.taskId f1, [m, agent], by
        simpa [handle_message, hm] using hst⟩
    · exact ⟨"", [], by funext c0; simp [handle_message, hm]⟩
  · by_cases he : method = "execute"
    · rcases params with m | ⟨c, t, ms⟩
      · exact ⟨"", [], by funext c0; simp [handle_message, hm, he]⟩
      · obtain ⟨suffix, hst⟩ :=
          handle_execute_store b64 dumps pyStr process f1 f2 st reqId c t ms
        exact ⟨orFresh c f1, suffix, by
          simpa [handle_message, hm, he] using hst⟩
    · exact ⟨"", [], by funext c0; simp [handle_message, hm, he]⟩

/-- C7: every handled request only appends to the conversation store (no
entry is removed or reordered at any context id), and two consecutive
successful execute calls sharing a non-empty context id leave that
context's conversation equal to the old one plus the first call's inbound
messages and agent message, then the second call's, so its length is the
old length plus `ms1.length + 1` plus `ms2.length + 1`. -/
theorem C7_conversation_append_only :
    (∀ b64 dumps pyStr process f1 f2 st reqId method params ctx,
      ∃ suffix : List A2AMessage,
        (handle_message b64 dumps pyStr process f1 f2 st reqId method
            params).1 ctx = st ctx ++ suffix)
    ∧ (∀ b64 dumps pyStr process process2 f1 f2 f3 f4 (st : ConvStore)
        reqId1 reqId2 cid tid1 tid2
        (ms1 ms2 : List A2AMessage),
        cid ≠ "" →
        ms1.filter (fun m => m.role = "user") ≠ [] →
        ms2.filter (fun m => m.role = "user") ≠ [] →
        ∃ a1 a2 : A2AMessage,
          (handle_execute b64 dumps pyStr process2 f3 f4
              (handle_execute b64 dumps pyStr process f1 f2 st reqId1
                (some cid) tid1 ms1).1
              reqId2 (some cid) tid2 ms2).1 cid =
            st cid ++ ms1 ++ [a1] ++ ms2 ++ [a2]
          ∧ ((handle_execute b64 dumps pyStr process2 f3 f4
              (handle_execute b64 dumps pyStr process f1 f2 st reqId1
                (some cid) tid1 ms1).1
              reqId2 (some cid) tid2 ms2).1 cid).length =
            (st cid).length + (ms1.length + 1) + (ms2.length + 1)) := by
  constructor
  · intro b64 dumps pyStr process f1 f2 st reqId method params ctx
    obtain ⟨cid, suffix, h⟩ :=
      handle_message_store b64 dumps pyStr process f1 f2 st reqId method params
    rw [h]
    by_cases hc : ctx = cid
    · exact ⟨suffix, by simp [hc]⟩
    · exact ⟨[], by simp [hc]⟩
  · intro b64 dumps pyStr process process2 f1 f2 f3 f4 st reqId1 reqId2 cid
      tid1 tid2 ms1 ms2 hc hu1 hu2
    have hcid : ∀ x : String, orFresh (some cid) x = cid := fun x => by
      simp [orFresh, hc]
    obtain ⟨a1, h1⟩ := handle_execute_store_success b64 dumps pyStr process
      f1 f2 st reqId1 (some cid) tid1 ms1 hu1
    obtain ⟨a2, h2⟩ := handle_execute_store_success b64 dumps pyStr process2
      f3 f4 _ reqId2 (some cid) tid2 ms2 hu2
    have key : (handle_execute b64 dumps pyStr process2 f3 f4
        (handle_execute b64 dumps pyStr process f1 f2 st reqId1
          (some cid) tid1 ms1).1
        reqId2 (some cid) tid2 ms2).1 cid =
        st cid ++ ms1 ++ [a1] ++ ms2 ++ [a2] := by
      rw [h2, h1]
      simp [hcid, List.append_assoc]
    exact ⟨a1, a2, key, by rw [key]; simp [List.length_append]; omega⟩

/-- C7 witness: starting from an empty store, an execute call appending
one user message followed by an execute call appending an agent and a
user message, both on context "ctx", leave 1 + 1 + 2 + 1 = 5 messages. -/
theorem C7_witness :
    ((handle_execute (fun _ => none) (fun _ => "") (fun _ => "")
        (fun _ => ("ok", [])) "f3" "f4"
        (handle_execute (fun _ => none) (fun _ => "") (fun _ => "")
          (fun _ => ("ok", [])) "f1" "f2" (fun _ => []) "r1" (some "ctx")
          none [⟨"user", [], none⟩]).1
        "r2" (some "ctx") none
        [⟨"agent", [], none⟩, ⟨"user", [], none⟩]).1 "ctx").length = 5 := by
  obtain ⟨a1, a2, heq, hlen⟩ :=
    C7_conversation_append_only.2 (fun _ => none) (fun _ => "") (fun _ => "")
      (fun _ => ("ok", [])) (fun _ => ("ok", [])) "f1" "f2" "f3" "f4"
      (fun _ => []) "r1" "r2" "ctx" none none [⟨"user", [], none⟩]
      [⟨"agent", [], none⟩, ⟨"user", [], none⟩]
      (by decide) (by decide) (by decide)
  exact hlen

/-- C8: an execute request with no user message among its inbound
messages is answered with the -32602 invalid-params error (no result),
and the inbound messages were already appended to the resolved context's
conversation before the check, so they remain stored. -/
theorem C8_execute_no_user_message :
    ∀ b64 dumps pyStr process f1 f2 (st : ConvStore) reqId contextId taskId
      (messages : List A2AMessage),
      messages.filter (fun m => m.role = "user") = [] →
      ((handle_execute b64 dumps pyStr process f1 f2 st reqId contextId
          taskId messages).2.error =
        some ⟨-32602, "No user message found in execute request"⟩
      ∧ (handle_execute b64 dumps pyStr process f1 f2 st reqId contextId
          taskId messages).2.result = none
      ∧ (handle_execute b64 dumps pyStr process f1 f2 st reqId contextId
          taskId messages).1 (orFresh contextId f1) =
          st (orFresh contextId f1) ++ messages) := by
  intro b64 dumps pyStr process f1 f2 st reqId contextId taskId messages hf
  unfold handle_execute
  rw [hf]
  exact ⟨rfl, rfl, by simp [lastOf]⟩

/-- C8 witness: a concrete execute request whose single inbound message
has role "agent" is rejected with -32602 yet that message is stored. -/
theorem C8_witness :
    ((handle_execute (fun _ => none) (fun _ => "") (fun _ => "")
        (fun _ => ("ok", [])) "f1" "f2" (fun _ => []) "r" (some "ctx") none
        [⟨"agent", [], none⟩]).2.error =
      some ⟨-32602, "No user message found in execute request"⟩)
    ∧ ((handle_execute (fun _ => none) (fun _ => "") (fun _ => "")
        (fun _ => ("ok", [])) "f1" "f2" (fun _ => []) "r" (some "ctx") none
        [⟨"agent", [], none⟩]).2.result = none)
    ∧ ((handle_execute (fun _ => none) (fun _ => "") (fun _ => "")
        (fun _ => ("ok", [])) "f1" "f2" (fun _ => []) "r" (some "ctx") none
        [⟨"agent", [], none⟩]).1 "ctx" = [⟨"agent", [], none⟩]) :=
  C8_execute_no_user_message (fun _ => none) (fun _ => "") (fun _ => "")
    (fun _ => ("ok", [])) "f1" "f2" (fun _ => []) "r" (some "ctx") none
    [⟨"agent", [], none⟩] rfl

/-- C9 counterexample: a message/send whose inbound message carries the
(empty-string) taskId "" gets a freshly minted context id, not that
taskId, because Python's `or` treats "" as absent. -/
theorem C9_counterexample :
    ((handle_message_send (fun _ => none) (fun _ => "") (fun _ => "")
        (fun _ => ("ok", [])) "u1" "u2" (fun _ => []) "r"
        ⟨"user", [], some ""⟩).2.result.map (fun tr => tr.contextId))
      = some "u1"
    ∧ ("u1" : String) ≠ "" :=
  ⟨rfl, by decide⟩

/-- C9 (amended): in message/send, a non-empty inbound taskId becomes
both the conversation context id and the TaskResult id; an absent (or
empty) taskId makes the context id the first fresh uuid mint and the
TaskResult id the second, independent mint, so they need not coincide. -/
theorem C9_task_id_resolution :
    ∀ b64 dumps pyStr process f1 f2 (st : ConvStore) reqId (m : A2AMessage),
      (∀ t, m.taskId = some t → t ≠ "" →
        ((handle_message_send b64 dumps pyStr process f1 f2 st reqId
            m).2.result.map (fun tr => tr.contextId) = some t
        ∧ (handle_message_send b64 dumps pyStr process f1 f2 st reqId
            m).2.result.map (fun tr => tr.id) = some t))
      ∧ (m.taskId = none →
        ((handle_message_send b64 dumps pyStr process f1 f2 st reqId
            m).2.result.map (fun tr => tr.contextId) = some f1
        ∧ (handle_message_send b64 dumps pyStr process f1 f2 st reqId
            m).2.result.map (fun tr => tr.id) = some f2)) := by
  intro b64 dumps pyStr process f1 f2 st reqId m
  constructor
  · intro t ht hne
    unfold handle_message_send
    simp [ht, orFresh, hne]
  · intro ht
    unfold handle_message_send
    simp [ht, orFresh]

/-- C9 witness: a concrete carried taskId "T1" is used as the context id,
and with taskId absent the TaskResult id is the second mint "u2". -/
theorem C9_witness :
    (((handle_message_send (fun _ => none) (fun _ => "") (fun _ => "")
        (fun _ => ("ok", [])) "u1" "u2" (fun _ => []) "r"
        ⟨"user", [], some "T1"⟩).2.result.map (fun tr => tr.contextId))
      = some "T1")
    ∧ (((handle_message_send (fun _ => none) (fun _ => "") (fun _ => "")
        (fun _ => ("ok", [])) "u1" "u2" (fun _ => []) "r"
        ⟨"user", [], none⟩).2.result.map (fun tr => tr.id)) = some "u2") :=
  ⟨((C9_task_id_resolution (fun _ => none) (fun _ => "") (fun _ => "")
      (fun _ => ("ok", [])) "u1" "u2" (fun _ => []) "r"
      ⟨"user", [], some "T1"⟩).1 "T1" rfl (by decide)).1,
   ((C9_task_id_resolution (fun _ => none) (fun _ => "") (fun _ => "")
      (fun _ => ("ok", [])) "u1" "u2" (fun _ => []) "r"
      ⟨"user", [], none⟩).2 rfl).2⟩

end PkgHealth
